import Mathlib

/-!
Shallow embedding of the irentstuff-transactions lambda handlers.

Conventions of the embedding:
  - MySQL tables become Lean lists of records; a SELECT ... WHERE becomes
    List.filter / List.find?, an UPDATE becomes List.map over matching rows.
  - The external collaborators are parameters: the authentication lambda
    result is an `AuthResult` value, the item catalog lookup is an
    `ItemDetails` value, and outbound side effects (item availability PATCH,
    websocket admin message) are recorded as an `Effect` list.
  - Server time (NOW(), CURRENT_TIMESTAMP) is an explicit `now : Nat`
    parameter; auto-increment ids are an explicit `nextId : Nat` parameter.
  - JSON response bodies are a small `Json` value type; the textual
    serialization performed by json.dumps / isoformat is abstracted away,
    the content of every payload is kept.
  - Python handlers that can fall off the end of the function (returning
    None) are embedded with result type `Option HttpResponse`.  The
    `exc : Bool` parameter of the creation handlers stands for an exception
    escaping from the try block around the admitted creation path; DECIMAL
    columns are embedded as `Rat`.
-/

/-- Result returned by the irentstuff-authenticate-user lambda. -/
structure AuthResult where
  message : String
  username : String
deriving Repr, DecidableEq

/-- Item details fetched from the items API by get_item. -/
structure ItemDetails where
  availability : String
  owner : String
deriving Repr, DecidableEq

/-- A row of the Rentals table. -/
structure Rental where
  rental_id : Nat
  owner_id : String
  renter_id : String
  item_id : Nat
  start_date : String
  end_date : String
  status : String
  price_per_day : Rat
  deposit : Rat
  created_at : Nat
  updated_at : Nat
deriving Repr, DecidableEq

/-- A row of the Purchases table. -/
structure Purchase where
  purchase_id : Nat
  owner_id : String
  buyer_id : String
  item_id : Nat
  purchase_date : Option Nat
  status : String
  purchase_price : Rat
  created_at : Nat
  updated_at : Nat
deriving Repr, DecidableEq

/-- JSON-like payloads carried in response bodies (the textual encoding of
json.dumps is abstracted; plain text bodies are `Json.str`). -/
inductive Json where
  | str (s : String)
  | nat (n : Nat)
  | num (q : Rat)
  | null
  | arr (xs : List Json)
  | obj (fields : List (String × Json))

/-- An HTTP response as assembled by the handlers (CORS headers elided). -/
structure HttpResponse where
  statusCode : Nat
  body : Json

/-- Outbound side effects of the update handlers: a PATCH of the item
availability in the items DB, or a websocket admin message. -/
inductive Effect where
  | setAvailability (item_id : Nat) (availability : String)
  | notify (sender : String) (admin : String)
deriving Repr, DecidableEq

/-- Python repr of one Rentals row, as interpolated into conflict bodies. -/
def rentalRowRepr (r : Rental) : String :=
  "(" ++ toString r.rental_id ++ ", " ++ r.owner_id ++ ", " ++ r.renter_id ++
    ", " ++ toString r.item_id ++ ", " ++ r.start_date ++ ", " ++ r.end_date ++
    ", " ++ r.status ++ ", " ++ toString r.price_per_day ++ ", " ++
    toString r.deposit ++ ", " ++ toString r.created_at ++ ", " ++
    toString r.updated_at ++ ")"

/-- Python repr of a list of Rentals rows. -/
def rentalsRepr (rows : List Rental) : String :=
  "[" ++ String.intercalate ", " (rows.map rentalRowRepr) ++ "]"

/-- JSON payload of a Rentals row as built by the creation and update
handlers (isoformat and float conversion abstracted). -/
def rentalJson (r : Rental) : Json :=
  .obj [("rental_id", .nat r.rental_id), ("owner_id", .str r.owner_id),
        ("renter_id", .str r.renter_id), ("item_id", .nat r.item_id),
        ("start_date", .str r.start_date), ("end_date", .str r.end_date),
        ("status", .str r.status), ("price_per_day", .num r.price_per_day),
        ("deposit", .num r.deposit), ("created_at", .nat r.created_at),
        ("updated_at", .nat r.updated_at)]

/-- JSON payload of a Purchases row as built by the creation and update
handlers. -/
def purchaseJson (p : Purchase) : Json :=
  .obj [("purchase_id", .nat p.purchase_id), ("owner_id", .str p.owner_id),
        ("buyer_id", .str p.buyer_id), ("item_id", .nat p.item_id),
        ("status", .str p.status), ("purchase_price", .num p.purchase_price),
        ("purchase_date", match p.purchase_date with
                          | some d => .nat d
                          | none => .null),
        ("created_at", .nat p.created_at), ("updated_at", .nat p.updated_at)]

/-- Outcome of check_item_rental_status (status_code plus text body). -/
structure CheckResult where
  status_code : Nat
  body : String
deriving Repr, DecidableEq

namespace RentalAdd

/-- Rentals rows the rental-add conflict query returns: WHERE item_id = %s
AND status NOT IN (offered, cancelled, completed). -/
def blockingRentals (db : List Rental) (item_id : Nat) : List Rental :=
  db.filter (fun r => r.item_id == item_id &&
    !(r.status == "offered" || r.status == "cancelled" || r.status == "completed"))

/-- check_item_rental_status of irentstuff-rental-add. -/
def check_item_rental_status (db : List Rental) (item_id : Nat) : CheckResult :=
  let results := blockingRentals db item_id
  if results ≠ [] then
    ⟨403, "Active rentals found for item_id " ++ toString item_id ++ ": " ++
      rentalsRepr results⟩
  else
    ⟨200, "No active rentals found for item_id " ++ toString item_id⟩

/-- Request body of a rental creation call (users + rental_details). -/
structure AddRentalRequest where
  item_id : Nat
  owner_id : String
  renter_id : String
  start_date : String
  end_date : String
  price_per_day : Rat
  deposit : Rat
deriving Repr, DecidableEq

/-- The Rentals row inserted by create_rental_entry (status offered,
auto-increment id, server timestamps). -/
def insertedRental (req : AddRentalRequest) (now nextId : Nat) : Rental :=
  { rental_id := nextId, owner_id := req.owner_id, renter_id := req.renter_id,
    item_id := req.item_id, start_date := req.start_date,
    end_date := req.end_date, status := "offered",
    price_per_day := req.price_per_day, deposit := req.deposit,
    created_at := now, updated_at := now }

/-- create_rental_entry of irentstuff-rental-add: insert the offered row,
re-select it, and return it as a 200 payload. -/
def create_rental_entry (req : AddRentalRequest) (db : List Rental)
    (now nextId : Nat) : HttpResponse × List Rental :=
  let r := insertedRental req now nextId
  (⟨200, rentalJson r⟩, db ++ [r])

/-- add_rental of irentstuff-rental-add.  `exc` stands for an exception
escaping inside the try block of the admitted path (the except handler only
logs, so the function then returns None). -/
def add_rental (auth : AuthResult) (item : ItemDetails) (req : AddRentalRequest)
    (db : List Rental) (exc : Bool) (now nextId : Nat) :
    Option HttpResponse × List Rental :=
  if auth.message ≠ "Token is valid" then
    (some ⟨401, .str "Your user token is invalid."⟩, db)
  else if auth.username = item.owner then
    (some ⟨400, .str "You cannot rent your own item."⟩, db)
  else if item.availability = "active_rental" then
    (some ⟨400, .str "There are active rentals for this item. You cannot add a new rental."⟩, db)
  else if item.availability = "pending_purchase" then
    (some ⟨400, .str "There are pending purchases for this item. You cannot add a new rental."⟩, db)
  else if item.availability = "sold" then
    (some ⟨400, .str "Item has been sold. You cannot rent it out. To rent out another copy of this item, please create a new entry using the \x27Add Stuff\x27 button."⟩, db)
  else if item.availability = "available" then
    if exc then (none, db)
    else
      let rentals := check_item_rental_status db req.item_id
      if rentals.status_code ≠ 200 then
        (some ⟨rentals.status_code, .obj [("message", .str rentals.body)]⟩, db)
      else
        let out := create_rental_entry req db now nextId
        (some out.1, out.2)
  else
    (none, db)

end RentalAdd

namespace PurchaseAdd

/-- Rentals rows the purchase-add conflict query returns: WHERE item_id = %s
AND status NOT IN (cancelled, completed).  Unlike the rental-add variant,
status offered is NOT excluded. -/
def blockingRentals (db : List Rental) (item_id : Nat) : List Rental :=
  db.filter (fun r => r.item_id == item_id &&
    !(r.status == "cancelled" || r.status == "completed"))

/-- check_item_rental_status of irentstuff-purchase-add. -/
def check_item_rental_status (db : List Rental) (item_id : Nat) : CheckResult :=
  let results := blockingRentals db item_id
  if results ≠ [] then
    ⟨403, "Active rentals found for item_id " ++ toString item_id ++ ": " ++
      rentalsRepr results⟩
  else
    ⟨200, "No active rentals found for item_id " ++ toString item_id⟩

/-- Request body of a purchase creation call (users + purchase_details). -/
structure AddPurchaseRequest where
  item_id : Nat
  owner_id : String
  buyer_id : String
  purchase_price : Rat
deriving Repr, DecidableEq

/-- The Purchases row inserted by create_purchase_entry (status offered,
purchase_date NULL, auto-increment id, server timestamps). -/
def insertedPurchase (req : AddPurchaseRequest) (now nextId : Nat) : Purchase :=
  { purchase_id := nextId, owner_id := req.owner_id, buyer_id := req.buyer_id,
    item_id := req.item_id, purchase_date := none, status := "offered",
    purchase_price := req.purchase_price, created_at := now, updated_at := now }

/-- create_purchase_entry of irentstuff-purchase-add. -/
def create_purchase_entry (req : AddPurchaseRequest) (db : List Purchase)
    (now nextId : Nat) : HttpResponse × List Purchase :=
  let p := insertedPurchase req now nextId
  (⟨200, purchaseJson p⟩, db ++ [p])

/-- add_purchase of irentstuff-purchase-add.  The conflict query reads only
the Rentals table; the Purchases table is touched only by the insert. -/
def add_purchase (auth : AuthResult) (item : ItemDetails)
    (req : AddPurchaseRequest) (rentalsDb : List Rental)
    (purchasesDb : List Purchase) (exc : Bool) (now nextId : Nat) :
    Option HttpResponse × List Purchase :=
  if auth.message ≠ "Token is valid" then
    (some ⟨401, .str "Your user token is invalid."⟩, purchasesDb)
  else if auth.username = item.owner then
    (some ⟨400, .str "You cannot purchase your own item."⟩, purchasesDb)
  else if item.availability = "active_rental" then
    (some ⟨400, .str "There are active rentals for this item. You cannot buy it until the rental has completed."⟩, purchasesDb)
  else if item.availability = "pending_purchase" then
    (some ⟨400, .str "There are pending purchases for this item. You cannot buy it."⟩, purchasesDb)
  else if item.availability = "sold" then
    (some ⟨400, .str "Item has been sold. You cannot sell it again. To sell another copy of this item, please create a new entry using the \x27Add Stuff\x27 button."⟩, purchasesDb)
  else if item.availability = "available" then
    if exc then (none, purchasesDb)
    else
      let rentals := check_item_rental_status rentalsDb req.item_id
      if rentals.status_code ≠ 200 then
        (some ⟨rentals.status_code, .obj [("message", .str rentals.body)]⟩, purchasesDb)
      else
        let out := create_purchase_entry req purchasesDb now nextId
        (some out.1, out.2)
  else
    (none, purchasesDb)

end PurchaseAdd

namespace RentalUpdate

/-- get_updated_rental of irentstuff_rental_update: re-select the row by
item and rental id and build the JSON payload for it. -/
def get_updated_rental (db : List Rental) (item_id rental_id : Nat) : Json :=
  match db.find? (fun r => r.item_id == item_id && r.rental_id == rental_id) with
  | some r => rentalJson r
  | none => .obj [("error", .str "Rental not found")]

/-- The UPDATE statement of update_db: set status on every row matching
rental_id and item_id; the ON UPDATE CURRENT_TIMESTAMP column updated_at is
refreshed by the same statement. -/
def rentalStatusWrite (db : List Rental) (new_status : String)
    (rental_id item_id now : Nat) : List Rental :=
  db.map (fun r =>
    if r.rental_id == rental_id && r.item_id == item_id then
      { r with status := new_status, updated_at := now }
    else r)

/-- update_db of irentstuff_rental_update: apply the status write, commit,
then retrieve the fresh row and return it as a 200 response. -/
def update_db (db : List Rental) (new_status : String)
    (rental_id item_id now : Nat) : HttpResponse × List Rental :=
  let db2 := rentalStatusWrite db new_status rental_id item_id now
  (⟨200, get_updated_rental db2 item_id rental_id⟩, db2)

/-- update_rental_status of irentstuff_rental_update.  The result carries
the response, the Rentals table after the call, and the outbound effects
(availability PATCH, websocket admin message) in the order they are
performed. -/
def update_rental_status (auth : AuthResult) (item_id rental_id : Nat)
    (action : String) (db : List Rental) (now : Nat) :
    HttpResponse × List Rental × List Effect :=
  if auth.message ≠ "Token is valid" then
    (⟨401, .str "Your user token is invalid."⟩, db, [])
  else
    match db.find? (fun r => r.rental_id == rental_id && r.item_id == item_id) with
    | none =>
      (⟨404, .str ("Rental ID " ++ toString rental_id ++ " with Item ID " ++
        toString item_id ++ " not found.")⟩, db, [])
    | some rental =>
      let item_owner := rental.owner_id
      let item_renter := rental.renter_id
      let current_status := rental.status
      if action = "confirm" ∧ current_status = "offered" then
        if auth.username = item_owner then
          let out := update_db db "confirmed" rental_id item_id now
          (out.1, out.2, [.notify item_owner "confirmed"])
        else
          (⟨401, .str "Only the item owner can confirm the rental request."⟩, db, [])
      else if action = "start" ∧ current_status = "confirmed" then
        if auth.username = item_owner then
          let out := update_db db "ongoing" rental_id item_id now
          (out.1, out.2,
           [.setAvailability item_id "active_rental", .notify item_owner "active"])
        else
          (⟨401, .str "Only the item owner can start the rental activity."⟩, db, [])
      else if action = "cancel" ∧ (current_status = "offered" ∨ current_status = "confirmed") then
        if auth.username = item_owner ∨ auth.username = item_renter then
          let out := update_db db "cancelled" rental_id item_id now
          (out.1, out.2,
           [.setAvailability item_id "available", .notify auth.username "cancelled"])
        else
          (⟨401, .str "Only the item owner or renter can cancel the rental request."⟩, db, [])
      else if action = "complete" ∧ current_status = "ongoing" then
        if auth.username = item_owner then
          let out := update_db db "completed" rental_id item_id now
          (out.1, out.2,
           [.setAvailability item_id "available", .notify item_owner "completed"])
        else
          (⟨401, .str "Only the item owner can complete the rental request."⟩, db, [])
      else
        (⟨400, .str ("Cannot perform \x27" ++ action ++ "\x27 update on Item ID \x27" ++
          toString item_id ++ "\x27 with Rental ID \x27" ++ toString rental_id ++
          "\x27 because the current status is \x27" ++ current_status ++ "\x27.")⟩,
         db, [])

end RentalUpdate

namespace PurchaseUpdate

/-- retrieve_updated_purchase of irentstuff_purchase_update. -/
def retrieve_updated_purchase (db : List Purchase) (item_id purchase_id : Nat) : Json :=
  match db.find? (fun p => p.item_id == item_id && p.purchase_id == purchase_id) with
  | some p => purchaseJson p
  | none => .obj [("error", .str "Purchase not found")]

/-- The UPDATE statement of update_db: for new status sold the one statement
sets both status and purchase_date = NOW(); otherwise only status.  The
updated_at column is refreshed by the same statement either way. -/
def purchaseStatusWrite (db : List Purchase) (new_status : String)
    (purchase_id item_id now : Nat) : List Purchase :=
  db.map (fun p =>
    if p.purchase_id == purchase_id && p.item_id == item_id then
      if new_status = "sold" then
        { p with status := new_status, purchase_date := some now, updated_at := now }
      else
        { p with status := new_status, updated_at := now }
    else p)

/-- update_db of irentstuff_purchase_update. -/
def update_db (db : List Purchase) (new_status : String)
    (purchase_id item_id now : Nat) : HttpResponse × List Purchase :=
  let db2 := purchaseStatusWrite db new_status purchase_id item_id now
  (⟨200, retrieve_updated_purchase db2 item_id purchase_id⟩, db2)

/-- update_purchase_status of irentstuff_purchase_update. -/
def update_purchase_status (auth : AuthResult) (item_id purchase_id : Nat)
    (action : String) (db : List Purchase) (now : Nat) :
    HttpResponse × List Purchase × List Effect :=
  if auth.message ≠ "Token is valid" then
    (⟨401, .str "Your user token is invalid."⟩, db, [])
  else
    match db.find? (fun p => p.purchase_id == purchase_id && p.item_id == item_id) with
    | none =>
      (⟨404, .str ("Purchase ID " ++ toString purchase_id ++ " with Item ID " ++
        toString item_id ++ " not found.")⟩, db, [])
    | some purchase =>
      let item_owner := purchase.owner_id
      let item_buyer := purchase.buyer_id
      let current_status := purchase.status
      if action = "confirm" ∧ current_status = "offered" then
        if auth.username = item_owner then
          let out := update_db db "confirmed" purchase_id item_id now
          (out.1, out.2,
           [.setAvailability item_id "pending_purchase", .notify item_owner "confirmed"])
        else
          (⟨401, .str "Only the item owner can confirm the purchase request."⟩, db, [])
      else if action = "cancel" ∧ (current_status = "offered" ∨ current_status = "confirmed") then
        if auth.username = item_owner ∨ auth.username = item_buyer then
          let out := update_db db "cancelled" purchase_id item_id now
          (out.1, out.2,
           [.setAvailability item_id "available", .notify auth.username "cancelled"])
        else
          (⟨401, .str "Only the item owner or buyer can cancel the purchase request."⟩, db, [])
      else if action = "complete" ∧ current_status = "confirmed" then
        if auth.username = item_owner then
          let out := update_db db "sold" purchase_id item_id now
          (out.1, out.2,
           [.setAvailability item_id "sold", .notify item_owner "sold"])
        else
          (⟨401, .str "Only the item owner can complete the purchase request."⟩, db, [])
      else
        (⟨400, .str ("Cannot perform \x27" ++ action ++ "\x27 update on Item ID \x27" ++
          toString item_id ++ "\x27 with Purchase ID \x27" ++ toString purchase_id ++
          "\x27 because the current status is \x27" ++ current_status ++ "\x27.")⟩,
         db, [])

end PurchaseUpdate

namespace PurchaseGet

/-- JSON payload built by retrieve_updated_purchase of
irentstuff_purchase_get (this handler omits updated_at). -/
def purchaseGetJson (p : Purchase) : Json :=
  .obj [("purchase_id", .nat p.purchase_id), ("created_at", .nat p.created_at),
        ("owner_id", .str p.owner_id), ("buyer_id", .str p.buyer_id),
        ("item_id", .nat p.item_id),
        ("purchase_date", match p.purchase_date with
                          | some d => .nat d
                          | none => .null),
        ("status", .str p.status), ("purchase_price", .num p.purchase_price)]

/-- retrieve_updated_purchase of irentstuff_purchase_get. -/
def retrieve_updated_purchase (db : List Purchase) (item_id purchase_id : Nat) : Json :=
  match db.find? (fun p => p.item_id == item_id && p.purchase_id == purchase_id) with
  | some p => purchaseGetJson p
  | none => .obj [("error", .str "Purchase not found")]

/-- get_purchase of irentstuff_purchase_get.  The event headers (including
any Authorization credential) are accepted but never read: `cred` is the
Authorization header value, `none` when absent.  Missing path parameters are
`none`. -/
def get_purchase (cred : Option String) (item_id purchase_id : Option Nat)
    (db : List Purchase) : HttpResponse :=
  match item_id, purchase_id with
  | some iid, some pid =>
    ⟨200, retrieve_updated_purchase db iid pid⟩
  | _, _ =>
    ⟨400, .obj [("error", .str "Missing item_id or purchase_id")]⟩

end PurchaseGet

namespace RentalsGet

/-- retrieve_updated_rental of irentstuff_rentals_get. -/
def retrieve_updated_rental (db : List Rental) (item_id rental_id : Nat) : Json :=
  match db.find? (fun r => r.item_id == item_id && r.rental_id == rental_id) with
  | some r => rentalJson r
  | none => .obj [("error", .str "Rental not found")]

/-- The rows the SELECT of get_rentals fetches: by rental_id when one is
given, else the single most recent row for type latest (ORDER BY created_at
DESC LIMIT 1), else all rows of the item. -/
def selectedRentals (db : List Rental) (item_id : Nat) (rental_id : Option Nat)
    (query_type : String) : List Rental :=
  match rental_id with
  | some rid => db.filter (fun r => r.item_id == item_id && r.rental_id == rid)
  | none =>
    let rows := db.filter (fun r => r.item_id == item_id)
    if query_type = "latest" then
      match rows.foldl (fun acc r =>
        match acc with
        | none => some r
        | some m => if r.created_at > m.created_at then some r else some m) none with
      | some m => [m]
      | none => []
    else rows

/-- get_rentals of irentstuff_rentals_get.  `cred` is the (unread)
Authorization header value. -/
def get_rentals (cred : Option String) (item_id : Nat) (rental_id : Option Nat)
    (query_type : String) (db : List Rental) : HttpResponse :=
  let rentals := selectedRentals db item_id rental_id query_type
  if rentals ≠ [] then
    ⟨200, .arr (rentals.map (fun r => retrieve_updated_rental db r.item_id r.rental_id))⟩
  else
    ⟨200, .obj [("message", .str "No rentals found")]⟩

end RentalsGet

namespace RentalUser

/-- get_user_rentals of irentstuff-rental-user (json.dumps of the raw rows,
default=str, abstracted as rentalJson).  `cred` is the (unread)
Authorization header value; a falsy user_id makes the Python function fall
off the end and return None, hence the Option result. -/
def get_user_rentals (cred : Option String) (user_id : String)
    (as_role : Option String) (db : List Rental) : Option HttpResponse :=
  if user_id ≠ "" then
    if as_role = some "owner" then
      some ⟨200, .arr ((db.filter (fun r => r.owner_id == user_id)).map rentalJson)⟩
    else if as_role = some "renter" then
      some ⟨200, .arr ((db.filter (fun r => r.renter_id == user_id)).map rentalJson)⟩
    else
      some ⟨400, .str ("Unable to get rentals related to " ++ user_id ++
        ". \x27as\x27 query string should be \x27owner\x27 or \x27renter\x27.")⟩
  else none

end RentalUser

namespace PurchaseUser

/-- get_user_purchases of irentstuff_purchase_user (json.dumps of the raw
rows abstracted as purchaseJson). -/
def get_user_purchases (cred : Option String) (user_id : String)
    (as_role : Option String) (db : List Purchase) : Option HttpResponse :=
  if user_id ≠ "" then
    if as_role = some "owner" then
      some ⟨200, .arr ((db.filter (fun p => p.owner_id == user_id)).map purchaseJson)⟩
    else if as_role = some "buyer" then
      some ⟨200, .arr ((db.filter (fun p => p.buyer_id == user_id)).map purchaseJson)⟩
    else
      some ⟨400, .str ("Unable to get purchases related to " ++ user_id ++
        ". \x27as\x27 query string should be \x27owner\x27 or \x27buyer\x27.")⟩
  else none

end PurchaseUser

/-! Lifecycle tables of the spec (section 4.2 and 4.3), used to state the
transition claims. -/

/-- Legal (action, current status) edges of the Rental lifecycle table. -/
def rentalLegalEdge (action status : String) : Prop :=
  (action = "confirm" ∧ status = "offered") ∨
  (action = "start" ∧ status = "confirmed") ∨
  (action = "cancel" ∧ (status = "offered" ∨ status = "confirmed")) ∨
  (action = "complete" ∧ status = "ongoing")

instance (action status : String) : Decidable (rentalLegalEdge action status) := by
  unfold rentalLegalEdge; infer_instance

/-- Legal (action, current status) edges of the Purchase lifecycle table. -/
def purchaseLegalEdge (action status : String) : Prop :=
  (action = "confirm" ∧ status = "offered") ∨
  (action = "cancel" ∧ (status = "offered" ∨ status = "confirmed")) ∨
  (action = "complete" ∧ status = "confirmed")

instance (action status : String) : Decidable (purchaseLegalEdge action status) := by
  unfold purchaseLegalEdge; infer_instance

/-- Authorized actor for a Rental transition: owner for confirm, start and
complete; owner or renter for cancel. -/
def rentalAuthorized (action requestor : String) (r : Rental) : Prop :=
  if action = "cancel" then requestor = r.owner_id ∨ requestor = r.renter_id
  else requestor = r.owner_id

instance (action requestor : String) (r : Rental) :
    Decidable (rentalAuthorized action requestor r) := by
  unfold rentalAuthorized; infer_instance

/-- Authorized actor for a Purchase transition: owner for confirm and
complete; owner or buyer for cancel. -/
def purchaseAuthorized (action requestor : String) (p : Purchase) : Prop :=
  if action = "cancel" then requestor = p.owner_id ∨ requestor = p.buyer_id
  else requestor = p.owner_id

instance (action requestor : String) (p : Purchase) :
    Decidable (purchaseAuthorized action requestor p) := by
  unfold purchaseAuthorized; infer_instance

/-- A concrete Rentals row in status offered, used as the discriminating
input for the two admission claims. -/
def offeredRentalRow : Rental :=
  { rental_id := 1, owner_id := "alice", renter_id := "bob", item_id := 7,
    start_date := "2024-10-01", end_date := "2024-10-05", status := "offered",
    price_per_day := 50, deposit := 100, created_at := 0, updated_at := 0 }

/-- C1: the claim says a Rental in status offered does not block a purchase
offer.  The code disagrees: check_item_rental_status of
irentstuff-purchase-add filters only statuses cancelled and completed out,
so a merely offered rental is returned as a conflict and add_purchase
rejects the request with 403, creating no Purchase row — even though the
module docstring states that purchase requests should only be disallowed
for an active or confirmed rental.  This theorem evaluates the embedded
handler at the failing input. -/
theorem c1_purchase_add_rejects_merely_offered_rental :
    (PurchaseAdd.add_purchase ⟨"Token is valid", "carol"⟩ ⟨"available", "alice"⟩
        ⟨7, "alice", "carol", 99⟩ [offeredRentalRow] [] false 10 1).1 =
      some ⟨403, .obj [("message", .str ("Active rentals found for item_id 7: " ++
        rentalsRepr [offeredRentalRow]))]⟩ ∧
    offeredRentalRow.status = "offered" ∧
    (PurchaseAdd.add_purchase ⟨"Token is valid", "carol"⟩ ⟨"available", "alice"⟩
        ⟨7, "alice", "carol", 99⟩ [offeredRentalRow] [] false 10 1).2 = [] :=
  ⟨rfl, rfl, rfl⟩

/-- C3 counterexample: the claim says an existing Rental in status offered
(a status outside {cancelled, completed}) blocks a new rental offer with a
Conflict.  On the code, with exactly such a rental present and the item
available, add_rental admits the request (200) and inserts the new offered
row. -/
theorem c3_counterexample_offered_rental_does_not_block :
    (RentalAdd.add_rental ⟨"Token is valid", "carol"⟩ ⟨"available", "alice"⟩
        ⟨7, "alice", "carol", "2024-11-01", "2024-11-03", 20, 30⟩
        [offeredRentalRow] false 10 2).1 =
      some ⟨200, rentalJson (RentalAdd.insertedRental
        ⟨7, "alice", "carol", "2024-11-01", "2024-11-03", 20, 30⟩ 10 2)⟩ ∧
    offeredRentalRow.item_id = 7 ∧
    offeredRentalRow.status ≠ "cancelled" ∧ offeredRentalRow.status ≠ "completed" :=
  ⟨rfl, rfl, by decide, by decide⟩

/-- The rental-add conflict query returns no rows exactly when every Rentals
row of the item is in status offered, cancelled or completed. -/
theorem rentalAdd_blocking_eq_nil_iff (db : List Rental) (i : Nat) :
    RentalAdd.blockingRentals db i = [] ↔
      ∀ r ∈ db, r.item_id = i →
        (r.status = "offered" ∨ r.status = "cancelled" ∨ r.status = "completed") := by
  unfold RentalAdd.blockingRentals
  rw [List.filter_eq_nil_iff]
  apply forall_congr'
  intro r
  apply forall_congr'
  intro hr
  simp only [Bool.and_eq_true, beq_iff_eq, Bool.not_eq_true', Bool.or_eq_false_iff,
    beq_eq_false_iff_ne, ne_eq, not_and]
  tauto

/-- C3 (amended): for a rental-creation request on an available item by an
authenticated non-owner, admission is refused with Conflict (403, surfacing
the conflicting rows) iff some Rental for the item has a status outside
{offered, cancelled, completed} — so an existing Rental in status offered
does NOT block a new rental offer. -/
theorem c3_rental_admission_conflict_iff_amended (auth : AuthResult)
    (item : ItemDetails) (req : RentalAdd.AddRentalRequest) (db : List Rental)
    (now nextId : Nat) (htok : auth.message = "Token is valid")
    (howner : auth.username ≠ item.owner)
    (havail : item.availability = "available") :
    ((RentalAdd.add_rental auth item req db false now nextId).1.map (·.statusCode) = some 403 ↔
      ∃ r ∈ db, r.item_id = req.item_id ∧
        r.status ≠ "offered" ∧ r.status ≠ "cancelled" ∧ r.status ≠ "completed") ∧
    (RentalAdd.blockingRentals db req.item_id ≠ [] →
      (RentalAdd.add_rental auth item req db false now nextId).1 =
        some ⟨403, .obj [("message", .str ("Active rentals found for item_id " ++
          toString req.item_id ++ ": " ++
          rentalsRepr (RentalAdd.blockingRentals db req.item_id)))]⟩) := by
  have hred : RentalAdd.add_rental auth item req db false now nextId =
      (let rentals := RentalAdd.check_item_rental_status db req.item_id
       if rentals.status_code ≠ 200 then
         (some ⟨rentals.status_code, .obj [("message", .str rentals.body)]⟩, db)
       else
         let out := RentalAdd.create_rental_entry req db now nextId
         (some out.1, out.2)) := by
    unfold RentalAdd.add_rental
    rw [htok, havail]
    simp [howner]
  rw [hred]
  by_cases hb : RentalAdd.blockingRentals db req.item_id = []
  · have hcheck : RentalAdd.check_item_rental_status db req.item_id =
        ⟨200, "No active rentals found for item_id " ++ toString req.item_id⟩ := by
      unfold RentalAdd.check_item_rental_status
      simp [hb]
    constructor
    · rw [hcheck]
      simp only [ne_eq, not_true_eq_false]
      constructor
      · intro h
        simp [RentalAdd.create_rental_entry] at h
      · intro h
        exfalso
        rcases h with ⟨r, hr, hitem, h1, h2, h3⟩
        have := (rentalAdd_blocking_eq_nil_iff db req.item_id).1 hb r hr hitem
        tauto
    · intro h
      exact absurd hb h
  · have hcheck : RentalAdd.check_item_rental_status db req.item_id =
        ⟨403, "Active rentals found for item_id " ++ toString req.item_id ++ ": " ++
          rentalsRepr (RentalAdd.blockingRentals db req.item_id)⟩ := by
      unfold RentalAdd.check_item_rental_status
      simp [hb]
    rw [hcheck]
    simp only [ne_eq]
    constructor
    · constructor
      · intro _
        by_contra hno
        push_neg at hno
        have : RentalAdd.blockingRentals db req.item_id = [] := by
          rw [rentalAdd_blocking_eq_nil_iff]
          intro r hr hitem
          have := hno r hr hitem
          tauto
        exact hb this
      · intro _
        simp
    · intro _
      simp

/-- A concrete Rentals row in status ongoing on item 7. -/
def ongoingRentalRow : Rental :=
  { offeredRentalRow with status := "ongoing" }

/-- The concrete rental-creation request used by the admission witnesses. -/
def sampleRentalReq : RentalAdd.AddRentalRequest :=
  ⟨7, "alice", "carol", "2024-11-01", "2024-11-03", 20, 30⟩

/-- Witness for the amended C3 theorem at a concrete input: one ongoing
rental on item 7 makes the creation request fail with 403. -/
theorem c3_rental_admission_conflict_iff_amended_witness :
    ((RentalAdd.add_rental ⟨"Token is valid", "carol"⟩ ⟨"available", "alice"⟩
        sampleRentalReq [ongoingRentalRow] false 10 2).1.map (·.statusCode) =
          some 403 ↔
      ∃ r ∈ [ongoingRentalRow], r.item_id = sampleRentalReq.item_id ∧
        r.status ≠ "offered" ∧ r.status ≠ "cancelled" ∧ r.status ≠ "completed") ∧
    (RentalAdd.blockingRentals [ongoingRentalRow] sampleRentalReq.item_id ≠ [] →
      (RentalAdd.add_rental ⟨"Token is valid", "carol"⟩ ⟨"available", "alice"⟩
        sampleRentalReq [ongoingRentalRow] false 10 2).1 =
        some ⟨403, .obj [("message", .str ("Active rentals found for item_id " ++
          toString sampleRentalReq.item_id ++ ": " ++
          rentalsRepr (RentalAdd.blockingRentals [ongoingRentalRow]
            sampleRentalReq.item_id)))]⟩) :=
  c3_rental_admission_conflict_iff_amended ⟨"Token is valid", "carol"⟩
    ⟨"available", "alice"⟩ sampleRentalReq [ongoingRentalRow] 10 2 rfl
    (by decide) rfl

/-- Shape of update_rental_status on a successful confirm. -/
theorem rental_update_confirm_success (auth : AuthResult) (item_id rental_id : Nat)
    (db : List Rental) (now : Nat) (r : Rental)
    (htok : auth.message = "Token is valid")
    (hfind : db.find? (fun x => x.rental_id == rental_id && x.item_id == item_id) = some r)
    (hst : r.status = "offered") (hown : auth.username = r.owner_id) :
    RentalUpdate.update_rental_status auth item_id rental_id "confirm" db now =
      ((RentalUpdate.update_db db "confirmed" rental_id item_id now).1,
       (RentalUpdate.update_db db "confirmed" rental_id item_id now).2,
       [.notify r.owner_id "confirmed"]) := by
  unfold RentalUpdate.update_rental_status
  rw [htok, hfind]
  simp only [ne_eq, not_true_eq_false, if_false, hst, hown, if_true, and_self,
    String.reduceEq, false_and, and_false, ite_true, ite_false]

/-- Shape of update_rental_status on a successful start. -/
theorem rental_update_start_success (auth : AuthResult) (item_id rental_id : Nat)
    (db : List Rental) (now : Nat) (r : Rental)
    (htok : auth.message = "Token is valid")
    (hfind : db.find? (fun x => x.rental_id == rental_id && x.item_id == item_id) = some r)
    (hst : r.status = "confirmed") (hown : auth.username = r.owner_id) :
    RentalUpdate.update_rental_status auth item_id rental_id "start" db now =
      ((RentalUpdate.update_db db "ongoing" rental_id item_id now).1,
       (RentalUpdate.update_db db "ongoing" rental_id item_id now).2,
       [.setAvailability item_id "active_rental", .notify r.owner_id "active"]) := by
  unfold RentalUpdate.update_rental_status
  rw [htok, hfind]
  simp only [ne_eq, not_true_eq_false, if_false, hst, hown, if_true, and_self,
    String.reduceEq, false_and, and_false, ite_true, ite_false]

/-- Shape of update_rental_status on a successful cancel. -/
theorem rental_update_cancel_success (auth : AuthResult) (item_id rental_id : Nat)
    (db : List Rental) (now : Nat) (r : Rental)
    (htok : auth.message = "Token is valid")
    (hfind : db.find? (fun x => x.rental_id == rental_id && x.item_id == item_id) = some r)
    (hst : r.status = "offered" ∨ r.status = "confirmed")
    (hauth : auth.username = r.owner_id ∨ auth.username = r.renter_id) :
    RentalUpdate.update_rental_status auth item_id rental_id "cancel" db now =
      ((RentalUpdate.update_db db "cancelled" rental_id item_id now).1,
       (RentalUpdate.update_db db "cancelled" rental_id item_id now).2,
       [.setAvailability item_id "available", .notify auth.username "cancelled"]) := by
  unfold RentalUpdate.update_rental_status
  rw [htok, hfind]
  have h1 : ¬(("cancel" : String) = "confirm" ∧ r.status = "offered") := by simp
  have h2 : ¬(("cancel" : String) = "start" ∧ r.status = "confirmed") := by simp
  have h3 : ("cancel" : String) = "cancel" ∧
      (r.status = "offered" ∨ r.status = "confirmed") := ⟨rfl, hst⟩
  simp only [ne_eq, not_true_eq_false, if_false, h1, h2, h3, hauth, if_true,
    and_self, ite_true, ite_false]

/-- Shape of update_rental_status on a successful complete. -/
theorem rental_update_complete_success (auth : AuthResult) (item_id rental_id : Nat)
    (db : List Rental) (now : Nat) (r : Rental)
    (htok : auth.message = "Token is valid")
    (hfind : db.find? (fun x => x.rental_id == rental_id && x.item_id == item_id) = some r)
    (hst : r.status = "ongoing") (hown : auth.username = r.owner_id) :
    RentalUpdate.update_rental_status auth item_id rental_id "complete" db now =
      ((RentalUpdate.update_db db "completed" rental_id item_id now).1,
       (RentalUpdate.update_db db "completed" rental_id item_id now).2,
       [.setAvailability item_id "available", .notify r.owner_id "completed"]) := by
  unfold RentalUpdate.update_rental_status
  rw [htok, hfind]
  simp only [ne_eq, not_true_eq_false, if_false, hst, hown, if_true, and_self,
    String.reduceEq, false_and, and_false, ite_true, ite_false]

/-- Shape of update_purchase_status on a successful confirm. -/
theorem purchase_update_confirm_success (auth : AuthResult) (item_id purchase_id : Nat)
    (db : List Purchase) (now : Nat) (p : Purchase)
    (htok : auth.message = "Token is valid")
    (hfind : db.find? (fun x => x.purchase_id == purchase_id && x.item_id == item_id) = some p)
    (hst : p.status = "offered") (hown : auth.username = p.owner_id) :
    PurchaseUpdate.update_purchase_status auth item_id purchase_id "confirm" db now =
      ((PurchaseUpdate.update_db db "confirmed" purchase_id item_id now).1,
       (PurchaseUpdate.update_db db "confirmed" purchase_id item_id now).2,
       [.setAvailability item_id "pending_purchase", .notify p.owner_id "confirmed"]) := by
  unfold PurchaseUpdate.update_purchase_status
  rw [htok, hfind]
  simp only [ne_eq, not_true_eq_false, if_false, hst, hown, if_true, and_self,
    String.reduceEq, false_and, and_false, ite_true, ite_false]

/-- Shape of update_purchase_status on a successful cancel. -/
theorem purchase_update_cancel_success (auth : AuthResult) (item_id purchase_id : Nat)
    (db : List Purchase) (now : Nat) (p : Purchase)
    (htok : auth.message = "Token is valid")
    (hfind : db.find? (fun x => x.purchase_id == purchase_id && x.item_id == item_id) = some p)
    (hst : p.status = "offered" ∨ p.status = "confirmed")
    (hauth : auth.username = p.owner_id ∨ auth.username = p.buyer_id) :
    PurchaseUpdate.update_purchase_status auth item_id purchase_id "cancel" db now =
      ((PurchaseUpdate.update_db db "cancelled" purchase_id item_id now).1,
       (PurchaseUpdate.update_db db "cancelled" purchase_id item_id now).2,
       [.setAvailability item_id "available", .notify auth.username "cancelled"]) := by
  unfold PurchaseUpdate.update_purchase_status
  rw [htok, hfind]
  have h1 : ¬(("cancel" : String) = "confirm" ∧ p.status = "offered") := by simp
  have h2 : ("cancel" : String) = "cancel" ∧
      (p.status = "offered" ∨ p.status = "confirmed") := ⟨rfl, hst⟩
  simp only [ne_eq, not_true_eq_false, if_false, h1, h2, hauth, if_true,
    and_self, ite_true, ite_false]

/-- Shape of update_purchase_status on a successful complete. -/
theorem purchase_update_complete_success (auth : AuthResult) (item_id purchase_id : Nat)
    (db : List Purchase) (now : Nat) (p : Purchase)
    (htok : auth.message = "Token is valid")
    (hfind : db.find? (fun x => x.purchase_id == purchase_id && x.item_id == item_id) = some p)
    (hst : p.status = "confirmed") (hown : auth.username = p.owner_id) :
    PurchaseUpdate.update_purchase_status auth item_id purchase_id "complete" db now =
      ((PurchaseUpdate.update_db db "sold" purchase_id item_id now).1,
       (PurchaseUpdate.update_db db "sold" purchase_id item_id now).2,
       [.setAvailability item_id "sold", .notify p.owner_id "sold"]) := by
  unfold PurchaseUpdate.update_purchase_status
  rw [htok, hfind]
  simp only [ne_eq, not_true_eq_false, if_false, hst, hown, if_true, and_self,
    String.reduceEq, false_and, and_false, ite_true, ite_false]

/-- C2: for every Rental and every Purchase transition request whose
(action, current status) pair is not an edge of the lifecycle table, the
handler answers 400 with a message reporting the attempted action and the
current status verbatim, the table is unchanged and no side effect is
performed. -/
theorem c2_invalid_transition_rejected :
    (∀ (auth : AuthResult) (item_id rental_id : Nat) (action : String)
        (db : List Rental) (now : Nat) (r : Rental),
      auth.message = "Token is valid" →
      db.find? (fun x => x.rental_id == rental_id && x.item_id == item_id) = some r →
      ¬ rentalLegalEdge action r.status →
      RentalUpdate.update_rental_status auth item_id rental_id action db now =
        (⟨400, .str ("Cannot perform \x27" ++ action ++ "\x27 update on Item ID \x27" ++
          toString item_id ++ "\x27 with Rental ID \x27" ++ toString rental_id ++
          "\x27 because the current status is \x27" ++ r.status ++ "\x27.")⟩, db, [])) ∧
    (∀ (auth : AuthResult) (item_id purchase_id : Nat) (action : String)
        (db : List Purchase) (now : Nat) (p : Purchase),
      auth.message = "Token is valid" →
      db.find? (fun x => x.purchase_id == purchase_id && x.item_id == item_id) = some p →
      ¬ purchaseLegalEdge action p.status →
      PurchaseUpdate.update_purchase_status auth item_id purchase_id action db now =
        (⟨400, .str ("Cannot perform \x27" ++ action ++ "\x27 update on Item ID \x27" ++
          toString item_id ++ "\x27 with Purchase ID \x27" ++ toString purchase_id ++
          "\x27 because the current status is \x27" ++ p.status ++ "\x27.")⟩, db, [])) := by
  constructor
  · intro auth item_id rental_id action db now r htok hfind hedge
    have h1 : ¬(action = "confirm" ∧ r.status = "offered") :=
      fun hc => hedge (Or.inl hc)
    have h2 : ¬(action = "start" ∧ r.status = "confirmed") :=
      fun hc => hedge (Or.inr (Or.inl hc))
    have h3 : ¬(action = "cancel" ∧ (r.status = "offered" ∨ r.status = "confirmed")) :=
      fun hc => hedge (Or.inr (Or.inr (Or.inl hc)))
    have h4 : ¬(action = "complete" ∧ r.status = "ongoing") :=
      fun hc => hedge (Or.inr (Or.inr (Or.inr hc)))
    unfold RentalUpdate.update_rental_status
    rw [htok, hfind]
    simp only [ne_eq, not_true_eq_false, if_false, h1, h2, h3, h4]
  · intro auth item_id purchase_id action db now p htok hfind hedge
    have h1 : ¬(action = "confirm" ∧ p.status = "offered") :=
      fun hc => hedge (Or.inl hc)
    have h2 : ¬(action = "cancel" ∧ (p.status = "offered" ∨ p.status = "confirmed")) :=
      fun hc => hedge (Or.inr (Or.inl hc))
    have h3 : ¬(action = "complete" ∧ p.status = "confirmed") :=
      fun hc => hedge (Or.inr (Or.inr hc))
    unfold PurchaseUpdate.update_purchase_status
    rw [htok, hfind]
    simp only [ne_eq, not_true_eq_false, if_false, h1, h2, h3]

/-- The item-availability PATCH calls contained in an effect list, in
order. -/
def availabilityWrites (effs : List Effect) : List (Nat × String) :=
  effs.filterMap (fun e =>
    match e with
    | .setAvailability i a => some (i, a)
    | _ => none)

/-- The admin tags of the websocket messages contained in an effect list,
in order. -/
def notifyTags (effs : List Effect) : List String :=
  effs.filterMap (fun e =>
    match e with
    | .notify _ a => some a
    | _ => none)

/-- The stored status a Rental reaches through a legal action. -/
def rentalNewStatus (action : String) : String :=
  if action = "confirm" then "confirmed"
  else if action = "start" then "ongoing"
  else if action = "cancel" then "cancelled"
  else "completed"

/-- C4: every successful Rental transition writes exactly the claimed item
availability (start: active_rental, cancel and complete: available, confirm:
none), and the rental engine never writes any availability value other than
active_rental and available on any path. -/
theorem c4_rental_availability_writes :
    (∀ (auth : AuthResult) (item_id rental_id : Nat) (action : String)
        (db : List Rental) (now : Nat) (r : Rental),
      auth.message = "Token is valid" →
      db.find? (fun x => x.rental_id == rental_id && x.item_id == item_id) = some r →
      rentalLegalEdge action r.status →
      rentalAuthorized action auth.username r →
      availabilityWrites
          (RentalUpdate.update_rental_status auth item_id rental_id action db now).2.2 =
        (if action = "start" then [(item_id, "active_rental")]
         else if action = "cancel" then [(item_id, "available")]
         else if action = "complete" then [(item_id, "available")]
         else [])) ∧
    (∀ (auth : AuthResult) (item_id rental_id : Nat) (action : String)
        (db : List Rental) (now : Nat) (i : Nat) (a : String),
      Effect.setAvailability i a ∈
        (RentalUpdate.update_rental_status auth item_id rental_id action db now).2.2 →
      a = "active_rental" ∨ a = "available") := by
  constructor
  · intro auth item_id rental_id action db now r htok hfind hedge hauth
    rcases hedge with ⟨ha, hs⟩ | ⟨ha, hs⟩ | ⟨ha, hs⟩ | ⟨ha, hs⟩ <;> subst ha
    · have hown : auth.username = r.owner_id := by
        simpa [rentalAuthorized] using hauth
      rw [rental_update_confirm_success auth item_id rental_id db now r htok hfind hs hown]
      simp [availabilityWrites]
    · have hown : auth.username = r.owner_id := by
        simpa [rentalAuthorized] using hauth
      rw [rental_update_start_success auth item_id rental_id db now r htok hfind hs hown]
      simp [availabilityWrites]
    · have hor : auth.username = r.owner_id ∨ auth.username = r.renter_id := by
        simpa [rentalAuthorized] using hauth
      rw [rental_update_cancel_success auth item_id rental_id db now r htok hfind hs hor]
      simp [availabilityWrites]
    · have hown : auth.username = r.owner_id := by
        simpa [rentalAuthorized] using hauth
      rw [rental_update_complete_success auth item_id rental_id db now r htok hfind hs hown]
      simp [availabilityWrites]
  · intro auth item_id rental_id action db now i a hmem
    unfold RentalUpdate.update_rental_status at hmem
    split at hmem
    · simp at hmem
    · split at hmem
      · simp at hmem
      · dsimp only at hmem
        split at hmem
        · split at hmem <;> simp_all
        · split at hmem
          · split at hmem <;> simp_all
          · split at hmem
            · split at hmem <;> simp_all
            · split at hmem
              · split at hmem <;> simp_all
              · simp_all

/-- A concrete Rentals row in status confirmed on item 7. -/
def confirmedRentalRow : Rental :=
  { offeredRentalRow with status := "confirmed" }

/-- Witness for C4 at a concrete input: the owner starting the confirmed
rental 1 on item 7 writes exactly availability active_rental, and that
concrete write is among the permitted values. -/
theorem c4_rental_availability_writes_witness :
    availabilityWrites
        (RentalUpdate.update_rental_status ⟨"Token is valid", "alice"⟩ 7 1 "start"
          [confirmedRentalRow] 11).2.2 =
      [(7, "active_rental")] ∧
    ("active_rental" = "active_rental" ∨ "active_rental" = "available") := by
  constructor
  · have h := c4_rental_availability_writes.1 ⟨"Token is valid", "alice"⟩ 7 1
      "start" [confirmedRentalRow] 11 confirmedRentalRow rfl rfl
      (by unfold rentalLegalEdge; simp [confirmedRentalRow, offeredRentalRow])
      (by unfold rentalAuthorized; simp [confirmedRentalRow, offeredRentalRow])
    simpa using h
  · exact c4_rental_availability_writes.2 ⟨"Token is valid", "alice"⟩ 7 1 "start"
      [confirmedRentalRow] 11 7 "active_rental" (by decide)

/-- The one message each Rental action answers on an actor mismatch. -/
def rentalForbiddenMsg (action : String) : String :=
  if action = "confirm" then "Only the item owner can confirm the rental request."
  else if action = "start" then "Only the item owner can start the rental activity."
  else if action = "cancel" then "Only the item owner or renter can cancel the rental request."
  else "Only the item owner can complete the rental request."

/-- The one message each Purchase action answers on an actor mismatch. -/
def purchaseForbiddenMsg (action : String) : String :=
  if action = "confirm" then "Only the item owner can confirm the purchase request."
  else if action = "cancel" then "Only the item owner or buyer can cancel the purchase request."
  else "Only the item owner can complete the purchase request."

/-- C6: a transition request whose (action, status) pair is legal but whose
authenticated requestor is not an authorized actor fails with the
Forbidden message naming the one legitimate actor role, leaving the table
unchanged and performing no side effect — for both engines. -/
theorem c6_forbidden_actor_rejected :
    (∀ (auth : AuthResult) (item_id rental_id : Nat) (action : String)
        (db : List Rental) (now : Nat) (r : Rental),
      auth.message = "Token is valid" →
      db.find? (fun x => x.rental_id == rental_id && x.item_id == item_id) = some r →
      rentalLegalEdge action r.status →
      ¬ rentalAuthorized action auth.username r →
      RentalUpdate.update_rental_status auth item_id rental_id action db now =
        (⟨401, .str (rentalForbiddenMsg action)⟩, db, [])) ∧
    (∀ (auth : AuthResult) (item_id purchase_id : Nat) (action : String)
        (db : List Purchase) (now : Nat) (p : Purchase),
      auth.message = "Token is valid" →
      db.find? (fun x => x.purchase_id == purchase_id && x.item_id == item_id) = some p →
      purchaseLegalEdge action p.status →
      ¬ purchaseAuthorized action auth.username p →
      PurchaseUpdate.update_purchase_status auth item_id purchase_id action db now =
        (⟨401, .str (purchaseForbiddenMsg action)⟩, db, [])) := by
  constructor
  · intro auth item_id rental_id action db now r htok hfind hedge hnauth
    rcases hedge with ⟨ha, hs⟩ | ⟨ha, hs⟩ | ⟨ha, hs⟩ | ⟨ha, hs⟩ <;> subst ha
    · have hnot : auth.username ≠ r.owner_id := by
        simpa [rentalAuthorized] using hnauth
      unfold RentalUpdate.update_rental_status
      rw [htok, hfind]
      simp [hs, hnot, rentalForbiddenMsg]
    · have hnot : auth.username ≠ r.owner_id := by
        simpa [rentalAuthorized] using hnauth
      unfold RentalUpdate.update_rental_status
      rw [htok, hfind]
      simp [hs, hnot, rentalForbiddenMsg]
    · have hnot : ¬(auth.username = r.owner_id ∨ auth.username = r.renter_id) := by
        simpa [rentalAuthorized] using hnauth
      unfold RentalUpdate.update_rental_status
      rw [htok, hfind]
      simp [hs, hnot, rentalForbiddenMsg]
    · have hnot : auth.username ≠ r.owner_id := by
        simpa [rentalAuthorized] using hnauth
      unfold RentalUpdate.update_rental_status
      rw [htok, hfind]
      simp [hs, hnot, rentalForbiddenMsg]
  · intro auth item_id purchase_id action db now p htok hfind hedge hnauth
    rcases hedge with ⟨ha, hs⟩ | ⟨ha, hs⟩ | ⟨ha, hs⟩ <;> subst ha
    · have hnot : auth.username ≠ p.owner_id := by
        simpa [purchaseAuthorized] using hnauth
      unfold PurchaseUpdate.update_purchase_status
      rw [htok, hfind]
      simp [hs, hnot, purchaseForbiddenMsg]
    · have hnot : ¬(auth.username = p.owner_id ∨ auth.username = p.buyer_id) := by
        simpa [purchaseAuthorized] using hnauth
      unfold PurchaseUpdate.update_purchase_status
      rw [htok, hfind]
      simp [hs, hnot, purchaseForbiddenMsg]
    · have hnot : auth.username ≠ p.owner_id := by
        simpa [purchaseAuthorized] using hnauth
      unfold PurchaseUpdate.update_purchase_status
      rw [htok, hfind]
      simp [hs, hnot, purchaseForbiddenMsg]

/-- A concrete Purchases row in status offered on item 7. -/
def offeredPurchaseRow : Purchase :=
  { purchase_id := 3, owner_id := "alice", buyer_id := "carol", item_id := 7,
    purchase_date := none, status := "offered", purchase_price := 99,
    created_at := 0, updated_at := 0 }

/-- Witness for C6 at the scenario of the claim: a non-owner, non-buyer
identity attempting cancel on an offered Purchase gets the Forbidden
message and nothing changes. -/
theorem c6_forbidden_actor_rejected_witness :
    PurchaseUpdate.update_purchase_status ⟨"Token is valid", "mallory"⟩ 7 3 "cancel"
        [offeredPurchaseRow] 11 =
      (⟨401, .str "Only the item owner or buyer can cancel the purchase request."⟩,
       [offeredPurchaseRow], []) := by
  have h := c6_forbidden_actor_rejected.2 ⟨"Token is valid", "mallory"⟩ 7 3
    "cancel" [offeredPurchaseRow] 11 offeredPurchaseRow rfl rfl
    (by unfold purchaseLegalEdge; simp [offeredPurchaseRow])
    (by unfold purchaseAuthorized; simp [offeredPurchaseRow])
  simpa [purchaseForbiddenMsg] using h

/-- C8: every successful Rental transition sends exactly one websocket
message, whose admin tag equals the new status name, except start, which
sends the tag active instead of the stored status ongoing. -/
theorem c8_rental_notify_admin_tags :
    ∀ (auth : AuthResult) (item_id rental_id : Nat) (action : String)
        (db : List Rental) (now : Nat) (r : Rental),
      auth.message = "Token is valid" →
      db.find? (fun x => x.rental_id == rental_id && x.item_id == item_id) = some r →
      rentalLegalEdge action r.status →
      rentalAuthorized action auth.username r →
      notifyTags
          (RentalUpdate.update_rental_status auth item_id rental_id action db now).2.2 =
        [if action = "start" then "active" else rentalNewStatus action] := by
  intro auth item_id rental_id action db now r htok hfind hedge hauth
  rcases hedge with ⟨ha, hs⟩ | ⟨ha, hs⟩ | ⟨ha, hs⟩ | ⟨ha, hs⟩ <;> subst ha
  · have hown : auth.username = r.owner_id := by
      simpa [rentalAuthorized] using hauth
    rw [rental_update_confirm_success auth item_id rental_id db now r htok hfind hs hown]
    simp [notifyTags, rentalNewStatus]
  · have hown : auth.username = r.owner_id := by
      simpa [rentalAuthorized] using hauth
    rw [rental_update_start_success auth item_id rental_id db now r htok hfind hs hown]
    simp [notifyTags]
  · have hor : auth.username = r.owner_id ∨ auth.username = r.renter_id := by
      simpa [rentalAuthorized] using hauth
    rw [rental_update_cancel_success auth item_id rental_id db now r htok hfind hs hor]
    simp [notifyTags, rentalNewStatus]
  · have hown : auth.username = r.owner_id := by
      simpa [rentalAuthorized] using hauth
    rw [rental_update_complete_success auth item_id rental_id db now r htok hfind hs hown]
    simp [notifyTags, rentalNewStatus]

/-- Witness for C8 at a concrete input: starting the confirmed rental sends
the tag active, not the stored status ongoing. -/
theorem c8_rental_notify_admin_tags_witness :
    notifyTags
        (RentalUpdate.update_rental_status ⟨"Token is valid", "alice"⟩ 7 1 "start"
          [confirmedRentalRow] 11).2.2 =
      [if ("start" : String) = "start" then "active" else rentalNewStatus "start"] :=
  c8_rental_notify_admin_tags ⟨"Token is valid", "alice"⟩ 7 1 "start"
    [confirmedRentalRow] 11 confirmedRentalRow rfl rfl
    (by unfold rentalLegalEdge; simp [confirmedRentalRow, offeredRentalRow])
    (by unfold rentalAuthorized; simp [confirmedRentalRow, offeredRentalRow])

/-- A concrete Purchases row in status sold on item 7. -/
def soldPurchaseRow : Purchase :=
  { purchase_id := 3, owner_id := "alice", buyer_id := "carol", item_id := 7,
    purchase_date := some 5, status := "sold", purchase_price := 99,
    created_at := 0, updated_at := 5 }

/-- Witness for C2 at the scenario of the claim: cancel on a Purchase in
status sold fails with the InvalidTransition message and changes nothing;
likewise confirm on an ongoing Rental. -/
theorem c2_invalid_transition_rejected_witness :
    PurchaseUpdate.update_purchase_status ⟨"Token is valid", "carol"⟩ 7 3 "cancel"
        [soldPurchaseRow] 11 =
      (⟨400, .str ("Cannot perform \x27cancel\x27 update on Item ID \x277\x27 with " ++
        "Purchase ID \x273\x27 because the current status is \x27sold\x27.")⟩,
       [soldPurchaseRow], []) ∧
    RentalUpdate.update_rental_status ⟨"Token is valid", "alice"⟩ 7 1 "confirm"
        [ongoingRentalRow] 11 =
      (⟨400, .str ("Cannot perform \x27confirm\x27 update on Item ID \x277\x27 with " ++
        "Rental ID \x271\x27 because the current status is \x27ongoing\x27.")⟩,
       [ongoingRentalRow], []) := by
  constructor
  · have h := c2_invalid_transition_rejected.2 ⟨"Token is valid", "carol"⟩ 7 3
      "cancel" [soldPurchaseRow] 11 soldPurchaseRow rfl rfl (by decide)
    simpa using h
  · have h := c2_invalid_transition_rejected.1 ⟨"Token is valid", "alice"⟩ 7 1
      "confirm" [ongoingRentalRow] 11 ongoingRentalRow rfl rfl (by decide)
    simpa using h

/-- C5: a complete request by the owner on a confirmed Purchase turns the
row into status sold with purchase_date set to the server time by the one
update statement (purchaseStatusWrite embeds that single statement), and
the item availability is then written to sold. -/
theorem c5_purchase_complete_sets_sold_and_date :
    ∀ (auth : AuthResult) (item_id purchase_id : Nat) (db : List Purchase)
        (now : Nat) (p : Purchase),
      auth.message = "Token is valid" →
      db.find? (fun x => x.purchase_id == purchase_id && x.item_id == item_id) = some p →
      p.status = "confirmed" → auth.username = p.owner_id →
      (PurchaseUpdate.update_purchase_status auth item_id purchase_id "complete" db now).2.1 =
        PurchaseUpdate.purchaseStatusWrite db "sold" purchase_id item_id now ∧
      (∀ q ∈ (PurchaseUpdate.update_purchase_status auth item_id purchase_id
          "complete" db now).2.1,
        q.purchase_id = purchase_id → q.item_id = item_id →
        q.status = "sold" ∧ q.purchase_date = some now) ∧
      availabilityWrites (PurchaseUpdate.update_purchase_status auth item_id purchase_id
          "complete" db now).2.2 = [(item_id, "sold")] := by
  intro auth item_id purchase_id db now p htok hfind hst hown
  have hshape := purchase_update_complete_success auth item_id purchase_id db now p
    htok hfind hst hown
  refine ⟨?_, ?_, ?_⟩
  · rw [hshape]
    rfl
  · intro q hq hqid hqitem
    rw [hshape] at hq
    have hq2 : q ∈ PurchaseUpdate.purchaseStatusWrite db "sold" purchase_id item_id now := hq
    unfold PurchaseUpdate.purchaseStatusWrite at hq2
    rw [List.mem_map] at hq2
    obtain ⟨x, hx, hfx⟩ := hq2
    by_cases hc : (x.purchase_id == purchase_id && x.item_id == item_id) = true
    · rw [if_pos hc] at hfx
      simp only [String.reduceEq, reduceIte, ite_true] at hfx
      rw [← hfx]
      exact ⟨rfl, rfl⟩
    · rw [if_neg hc] at hfx
      subst hfx
      exact absurd (by simp [hqid, hqitem]) hc
  · rw [hshape]
    rfl

/-- Witness for C5 at a concrete input: the owner completing the confirmed
purchase 3 on item 7. -/
theorem c5_purchase_complete_sets_sold_and_date_witness :
    (PurchaseUpdate.update_purchase_status ⟨"Token is valid", "alice"⟩ 7 3
        "complete" [{ offeredPurchaseRow with status := "confirmed" }] 11).2.1 =
      PurchaseUpdate.purchaseStatusWrite
        [{ offeredPurchaseRow with status := "confirmed" }] "sold" 3 7 11 ∧
    (∀ q ∈ (PurchaseUpdate.update_purchase_status ⟨"Token is valid", "alice"⟩ 7 3
        "complete" [{ offeredPurchaseRow with status := "confirmed" }] 11).2.1,
      q.purchase_id = 3 → q.item_id = 7 →
      q.status = "sold" ∧ q.purchase_date = some 11) ∧
    availabilityWrites (PurchaseUpdate.update_purchase_status ⟨"Token is valid", "alice"⟩
        7 3 "complete" [{ offeredPurchaseRow with status := "confirmed" }] 11).2.2 =
      [(7, "sold")] :=
  c5_purchase_complete_sets_sold_and_date ⟨"Token is valid", "alice"⟩ 7 3
    [{ offeredPurchaseRow with status := "confirmed" }] 11
    { offeredPurchaseRow with status := "confirmed" } rfl rfl rfl rfl

/-- Shape of add_purchase on the happy path: available item, valid token,
non-owner requestor, no blocking rental, no exception. -/
theorem purchase_add_success (auth : AuthResult) (item : ItemDetails)
    (req : PurchaseAdd.AddPurchaseRequest) (rentalsDb : List Rental)
    (purchasesDb : List Purchase) (now nid : Nat)
    (htok : auth.message = "Token is valid") (howner : auth.username ≠ item.owner)
    (havail : item.availability = "available")
    (hb : PurchaseAdd.blockingRentals rentalsDb req.item_id = []) :
    PurchaseAdd.add_purchase auth item req rentalsDb purchasesDb false now nid =
      (some ⟨200, purchaseJson (PurchaseAdd.insertedPurchase req now nid)⟩,
       purchasesDb ++ [PurchaseAdd.insertedPurchase req now nid]) := by
  unfold PurchaseAdd.add_purchase
  rw [htok, havail]
  have hcheck : PurchaseAdd.check_item_rental_status rentalsDb req.item_id =
      ⟨200, "No active rentals found for item_id " ++ toString req.item_id⟩ := by
    unfold PurchaseAdd.check_item_rental_status
    simp [hb]
  simp [howner, hcheck, PurchaseAdd.create_purchase_entry]

/-- C7: two back-to-back purchase offers on the same available item by two
different buyers are both admitted, both inserting a row in status offered;
and the admission outcome of add_purchase never depends on the existing
Purchases table. -/
theorem c7_double_purchase_offers_both_admitted :
    (∀ (auth1 auth2 : AuthResult) (item : ItemDetails)
        (req1 req2 : PurchaseAdd.AddPurchaseRequest) (rentalsDb : List Rental)
        (purchasesDb : List Purchase) (now1 now2 id1 id2 : Nat),
      auth1.message = "Token is valid" → auth2.message = "Token is valid" →
      auth1.username ≠ item.owner → auth2.username ≠ item.owner →
      item.availability = "available" →
      req2.item_id = req1.item_id →
      req1.buyer_id ≠ req2.buyer_id →
      PurchaseAdd.blockingRentals rentalsDb req1.item_id = [] →
      ((PurchaseAdd.add_purchase auth1 item req1 rentalsDb purchasesDb false now1 id1).1 =
          some ⟨200, purchaseJson (PurchaseAdd.insertedPurchase req1 now1 id1)⟩ ∧
       (PurchaseAdd.add_purchase auth1 item req1 rentalsDb purchasesDb false now1 id1).2 =
          purchasesDb ++ [PurchaseAdd.insertedPurchase req1 now1 id1] ∧
       (PurchaseAdd.insertedPurchase req1 now1 id1).status = "offered" ∧
       (PurchaseAdd.add_purchase auth2 item req2 rentalsDb
           (purchasesDb ++ [PurchaseAdd.insertedPurchase req1 now1 id1]) false now2 id2).1 =
          some ⟨200, purchaseJson (PurchaseAdd.insertedPurchase req2 now2 id2)⟩ ∧
       (PurchaseAdd.add_purchase auth2 item req2 rentalsDb
           (purchasesDb ++ [PurchaseAdd.insertedPurchase req1 now1 id1]) false now2 id2).2 =
          (purchasesDb ++ [PurchaseAdd.insertedPurchase req1 now1 id1]) ++
            [PurchaseAdd.insertedPurchase req2 now2 id2] ∧
       (PurchaseAdd.insertedPurchase req2 now2 id2).status = "offered")) ∧
    (∀ (auth : AuthResult) (item : ItemDetails) (req : PurchaseAdd.AddPurchaseRequest)
        (rentalsDb : List Rental) (ps ps' : List Purchase) (exc : Bool) (now nid : Nat),
      (PurchaseAdd.add_purchase auth item req rentalsDb ps exc now nid).1 =
      (PurchaseAdd.add_purchase auth item req rentalsDb ps' exc now nid).1) := by
  constructor
  · intro auth1 auth2 item req1 req2 rentalsDb purchasesDb now1 now2 id1 id2
      htok1 htok2 howner1 howner2 havail hitem hbuyers hb
    have hb2 : PurchaseAdd.blockingRentals rentalsDb req2.item_id = [] := by
      rw [hitem]
      exact hb
    have h1 := purchase_add_success auth1 item req1 rentalsDb purchasesDb now1 id1
      htok1 howner1 havail hb
    have h2 := purchase_add_success auth2 item req2 rentalsDb
      (purchasesDb ++ [PurchaseAdd.insertedPurchase req1 now1 id1]) now2 id2
      htok2 howner2 havail hb2
    rw [h1, h2]
    exact ⟨rfl, rfl, rfl, rfl, rfl, rfl⟩
  · intro auth item req rentalsDb ps ps' exc now nid
    unfold PurchaseAdd.add_purchase
    split_ifs <;> first
      | rfl
      | (dsimp only
         split <;> rfl)

/-- The first concrete purchase offer used by the C7 witness. -/
def c7req1 : PurchaseAdd.AddPurchaseRequest := ⟨7, "alice", "carol", 99⟩

/-- The second concrete purchase offer used by the C7 witness. -/
def c7req2 : PurchaseAdd.AddPurchaseRequest := ⟨7, "alice", "dave", 88⟩

/-- Witness for C7 at concrete inputs: buyers carol and dave both get their
offers on item 7 admitted back-to-back, and the admission result ignores
the Purchases table contents. -/
theorem c7_double_purchase_offers_both_admitted_witness :
    ((PurchaseAdd.add_purchase ⟨"Token is valid", "carol"⟩ ⟨"available", "alice"⟩
        c7req1 [] [] false 10 1).1 =
       some ⟨200, purchaseJson (PurchaseAdd.insertedPurchase c7req1 10 1)⟩ ∧
     (PurchaseAdd.add_purchase ⟨"Token is valid", "carol"⟩ ⟨"available", "alice"⟩
        c7req1 [] [] false 10 1).2 =
       [] ++ [PurchaseAdd.insertedPurchase c7req1 10 1] ∧
     (PurchaseAdd.insertedPurchase c7req1 10 1).status = "offered" ∧
     (PurchaseAdd.add_purchase ⟨"Token is valid", "dave"⟩ ⟨"available", "alice"⟩
        c7req2 [] ([] ++ [PurchaseAdd.insertedPurchase c7req1 10 1]) false 12 2).1 =
       some ⟨200, purchaseJson (PurchaseAdd.insertedPurchase c7req2 12 2)⟩ ∧
     (PurchaseAdd.add_purchase ⟨"Token is valid", "dave"⟩ ⟨"available", "alice"⟩
        c7req2 [] ([] ++ [PurchaseAdd.insertedPurchase c7req1 10 1]) false 12 2).2 =
       ([] ++ [PurchaseAdd.insertedPurchase c7req1 10 1]) ++
         [PurchaseAdd.insertedPurchase c7req2 12 2] ∧
     (PurchaseAdd.insertedPurchase c7req2 12 2).status = "offered") ∧
    (PurchaseAdd.add_purchase ⟨"Token is valid", "carol"⟩ ⟨"available", "alice"⟩
       c7req1 [] [offeredPurchaseRow] false 10 1).1 =
    (PurchaseAdd.add_purchase ⟨"Token is valid", "carol"⟩ ⟨"available", "alice"⟩
       c7req1 [] [] false 10 1).1 :=
  ⟨c7_double_purchase_offers_both_admitted.1 ⟨"Token is valid", "carol"⟩
     ⟨"Token is valid", "dave"⟩ ⟨"available", "alice"⟩ c7req1 c7req2 [] [] 10 12 1 2
     rfl rfl (by decide) (by decide) rfl rfl (by decide) rfl,
   c7_double_purchase_offers_both_admitted.2 ⟨"Token is valid", "carol"⟩
     ⟨"available", "alice"⟩ c7req1 [] [offeredPurchaseRow] [] false 10 1⟩

/-- C9: the four read handlers never look at the request credential — two
requests differing only in their Authorization header (present or absent)
get identical responses — and none of them ever answers 401 Unauthorized. -/
theorem c9_read_handlers_ignore_credentials :
    (∀ (c1 c2 : Option String) (iid pid : Option Nat) (db : List Purchase),
       PurchaseGet.get_purchase c1 iid pid db = PurchaseGet.get_purchase c2 iid pid db) ∧
    (∀ (c : Option String) (iid pid : Option Nat) (db : List Purchase),
       (PurchaseGet.get_purchase c iid pid db).statusCode ≠ 401) ∧
    (∀ (c1 c2 : Option String) (iid : Nat) (rid : Option Nat) (qt : String)
        (db : List Rental),
       RentalsGet.get_rentals c1 iid rid qt db = RentalsGet.get_rentals c2 iid rid qt db) ∧
    (∀ (c : Option String) (iid : Nat) (rid : Option Nat) (qt : String)
        (db : List Rental),
       (RentalsGet.get_rentals c iid rid qt db).statusCode ≠ 401) ∧
    (∀ (c1 c2 : Option String) (uid : String) (role : Option String) (db : List Rental),
       RentalUser.get_user_rentals c1 uid role db =
       RentalUser.get_user_rentals c2 uid role db) ∧
    (∀ (c : Option String) (uid : String) (role : Option String) (db : List Rental)
        (resp : HttpResponse),
       RentalUser.get_user_rentals c uid role db = some resp → resp.statusCode ≠ 401) ∧
    (∀ (c1 c2 : Option String) (uid : String) (role : Option String) (db : List Purchase),
       PurchaseUser.get_user_purchases c1 uid role db =
       PurchaseUser.get_user_purchases c2 uid role db) ∧
    (∀ (c : Option String) (uid : String) (role : Option String) (db : List Purchase)
        (resp : HttpResponse),
       PurchaseUser.get_user_purchases c uid role db = some resp →
       resp.statusCode ≠ 401) := by
  refine ⟨?_, ?_, ?_, ?_, ?_, ?_, ?_, ?_⟩
  · intro c1 c2 iid pid db
    rfl
  · intro c iid pid db
    unfold PurchaseGet.get_purchase
    rcases iid with _ | i <;> rcases pid with _ | p <;> simp
  · intro c1 c2 iid rid qt db
    rfl
  · intro c iid rid qt db
    unfold RentalsGet.get_rentals
    dsimp only
    split <;> simp
  · intro c1 c2 uid role db
    rfl
  · intro c uid role db resp h
    unfold RentalUser.get_user_rentals at h
    split_ifs at h <;>
      first
        | exact Option.noConfusion h
        | (injection h with h
           subst h
           simp)
  · intro c1 c2 uid role db
    rfl
  · intro c uid role db resp h
    unfold PurchaseUser.get_user_purchases at h
    split_ifs at h <;>
      first
        | exact Option.noConfusion h
        | (injection h with h
           subst h
           simp)

/-- Witness for C9 at concrete inputs: the responses with and without a
bearer token coincide and are not 401, for all four read handlers. -/
theorem c9_read_handlers_ignore_credentials_witness :
    (PurchaseGet.get_purchase (some "tok") (some 7) (some 3) [offeredPurchaseRow] =
       PurchaseGet.get_purchase none (some 7) (some 3) [offeredPurchaseRow]) ∧
    (PurchaseGet.get_purchase (some "tok") (some 7) (some 3)
       [offeredPurchaseRow]).statusCode ≠ 401 ∧
    (RentalsGet.get_rentals (some "tok") 7 none "all" [offeredRentalRow] =
       RentalsGet.get_rentals none 7 none "all" [offeredRentalRow]) ∧
    (RentalsGet.get_rentals (some "tok") 7 none "all"
       [offeredRentalRow]).statusCode ≠ 401 ∧
    (RentalUser.get_user_rentals (some "tok") "bob" (some "renter") [offeredRentalRow] =
       RentalUser.get_user_rentals none "bob" (some "renter") [offeredRentalRow]) ∧
    (∀ resp, RentalUser.get_user_rentals (some "tok") "bob" (some "renter")
        [offeredRentalRow] = some resp → resp.statusCode ≠ 401) ∧
    (PurchaseUser.get_user_purchases (some "tok") "carol" (some "buyer")
        [offeredPurchaseRow] =
       PurchaseUser.get_user_purchases none "carol" (some "buyer")
        [offeredPurchaseRow]) ∧
    (∀ resp, PurchaseUser.get_user_purchases (some "tok") "carol" (some "buyer")
        [offeredPurchaseRow] = some resp → resp.statusCode ≠ 401) :=
  ⟨c9_read_handlers_ignore_credentials.1 (some "tok") none (some 7) (some 3)
     [offeredPurchaseRow],
   c9_read_handlers_ignore_credentials.2.1 (some "tok") (some 7) (some 3)
     [offeredPurchaseRow],
   c9_read_handlers_ignore_credentials.2.2.1 (some "tok") none 7 none "all"
     [offeredRentalRow],
   c9_read_handlers_ignore_credentials.2.2.2.1 (some "tok") 7 none "all"
     [offeredRentalRow],
   c9_read_handlers_ignore_credentials.2.2.2.2.1 (some "tok") none "bob"
     (some "renter") [offeredRentalRow],
   fun resp => c9_read_handlers_ignore_credentials.2.2.2.2.2.1 (some "tok") "bob"
     (some "renter") [offeredRentalRow] resp,
   c9_read_handlers_ignore_credentials.2.2.2.2.2.2.1 (some "tok") none "carol"
     (some "buyer") [offeredPurchaseRow],
   fun resp => c9_read_handlers_ignore_credentials.2.2.2.2.2.2.2 (some "tok") "carol"
     (some "buyer") [offeredPurchaseRow] resp⟩

/-- C10: for an authenticated non-owner creation request, an availability
value outside the four known states falls off the dispatch chain (no final
else), and an exception inside the admitted creation path is only logged —
either way the handler returns no response value at all, for both the
purchase and the rental creation handlers. -/
theorem c10_create_handlers_return_none :
    (∀ (auth : AuthResult) (item : ItemDetails) (req : PurchaseAdd.AddPurchaseRequest)
        (rentalsDb : List Rental) (purchasesDb : List Purchase) (exc : Bool)
        (now nid : Nat),
      auth.message = "Token is valid" → auth.username ≠ item.owner →
      item.availability ≠ "available" → item.availability ≠ "active_rental" →
      item.availability ≠ "pending_purchase" → item.availability ≠ "sold" →
      (PurchaseAdd.add_purchase auth item req rentalsDb purchasesDb exc now nid).1 = none) ∧
    (∀ (auth : AuthResult) (item : ItemDetails) (req : PurchaseAdd.AddPurchaseRequest)
        (rentalsDb : List Rental) (purchasesDb : List Purchase) (now nid : Nat),
      auth.message = "Token is valid" → auth.username ≠ item.owner →
      item.availability = "available" →
      (PurchaseAdd.add_purchase auth item req rentalsDb purchasesDb true now nid).1 = none) ∧
    (∀ (auth : AuthResult) (item : ItemDetails) (req : RentalAdd.AddRentalRequest)
        (db : List Rental) (exc : Bool) (now nid : Nat),
      auth.message = "Token is valid" → auth.username ≠ item.owner →
      item.availability ≠ "available" → item.availability ≠ "active_rental" →
      item.availability ≠ "pending_purchase" → item.availability ≠ "sold" →
      (RentalAdd.add_rental auth item req db exc now nid).1 = none) ∧
    (∀ (auth : AuthResult) (item : ItemDetails) (req : RentalAdd.AddRentalRequest)
        (db : List Rental) (now nid : Nat),
      auth.message = "Token is valid" → auth.username ≠ item.owner →
      item.availability = "available" →
      (RentalAdd.add_rental auth item req db true now nid).1 = none) := by
  refine ⟨?_, ?_, ?_, ?_⟩
  · intro auth item req rentalsDb purchasesDb exc now nid htok howner h1 h2 h3 h4
    unfold PurchaseAdd.add_purchase
    simp [htok, howner, h1, h2, h3, h4]
  · intro auth item req rentalsDb purchasesDb now nid htok howner havail
    unfold PurchaseAdd.add_purchase
    simp [htok, howner, havail]
  · intro auth item req db exc now nid htok howner h1 h2 h3 h4
    unfold RentalAdd.add_rental
    simp [htok, howner, h1, h2, h3, h4]
  · intro auth item req db now nid htok howner havail
    unfold RentalAdd.add_rental
    simp [htok, howner, havail]

/-- Witness for C10 at concrete inputs: an availability value outside the
enum and a raised exception both make the handlers answer nothing. -/
theorem c10_create_handlers_return_none_witness :
    (PurchaseAdd.add_purchase ⟨"Token is valid", "carol"⟩ ⟨"archived", "alice"⟩
       c7req1 [] [] false 10 1).1 = none ∧
    (PurchaseAdd.add_purchase ⟨"Token is valid", "carol"⟩ ⟨"available", "alice"⟩
       c7req1 [] [] true 10 1).1 = none ∧
    (RentalAdd.add_rental ⟨"Token is valid", "carol"⟩ ⟨"archived", "alice"⟩
       sampleRentalReq [] false 10 1).1 = none ∧
    (RentalAdd.add_rental ⟨"Token is valid", "carol"⟩ ⟨"available", "alice"⟩
       sampleRentalReq [] true 10 1).1 = none :=
  ⟨c10_create_handlers_return_none.1 ⟨"Token is valid", "carol"⟩ ⟨"archived", "alice"⟩
     c7req1 [] [] false 10 1 rfl (by decide) (by decide) (by decide) (by decide)
     (by decide),
   c10_create_handlers_return_none.2.1 ⟨"Token is valid", "carol"⟩
     ⟨"available", "alice"⟩ c7req1 [] [] 10 1 rfl (by decide) rfl,
   c10_create_handlers_return_none.2.2.1 ⟨"Token is valid", "carol"⟩
     ⟨"archived", "alice"⟩ sampleRentalReq [] false 10 1 rfl (by decide) (by decide)
     (by decide) (by decide) (by decide),
   c10_create_handlers_return_none.2.2.2 ⟨"Token is valid", "carol"⟩
     ⟨"available", "alice"⟩ sampleRentalReq [] 10 1 rfl (by decide) rfl⟩
